import Mathlib

/-!
Shallow embedding of `cmd/oras/copy.go` (the `oras copy` command of the
CharingJC/oras repository): the copy orchestrator `runCopy`, its mode
selection over (recursive, destination-reference emptiness), the
`PreCopy` / `OnCopySkipped` callbacks, and the argument handling of
`copyCmd`.  Collaborator behaviour (repository construction, `Resolve`,
and the four oras-go delegates) is abstracted into an explicit oracle
record `Collab`; `runCopy` additionally produces the trace of
collaborator calls it makes and the lines it prints, so that theorems
can speak about which delegate was invoked with which arguments and
about the completion output.
-/

set_option autoImplicit false

namespace OrasCopy

/-- Annotation key carrying the human-readable title
(`ocispec.AnnotationTitle` = `org.opencontainers.image.title`). -/
def AnnotationTitle : String := "org.opencontainers.image.title"

/-- OCI descriptor (`ocispec.Descriptor`): media type, digest, size and
annotations.  The Go `map[string]string` of annotations is modelled as an
association list with lookup on the first matching key. -/
structure Descriptor where
  mediaType : String
  digest : String
  size : Int
  annotations : List (String × String)
deriving DecidableEq, Repr

/-- Go map lookup with comma-ok semantics: `v, ok := m[k]` yields
`some v` when the key is present (even when the value is `""`),
`none` when the key is absent. -/
def mapGet (k : String) : List (String × String) → Option String
  | [] => none
  | (k1, v) :: rest => if k1 = k then some v else mapGet k rest

/-- Go map indexing without comma-ok: `m[k]` yields the zero value `""`
when the key is absent. -/
def mapGetD (k : String) (m : List (String × String)) : String :=
  (mapGet k m).getD ""

/-- One human-readable progress line emitted through the display sink:
`display.Print(status, shortDigest, name)`. -/
structure Line where
  status : String
  shortDigest : String
  label : String
deriving DecidableEq, Repr

/-- Modelled from the spec: `display.ShortDigest` lives outside the
provided sources; the spec treats it as an opaque derivation of a short
digest form from the descriptor, so it is modelled as a function of the
descriptor's digest. -/
def ShortDigest (desc : Descriptor) : String := desc.digest

/-- Modelled from the spec: `display.Print(status, shortDigest, label)`
lives outside the provided sources; the spec describes it as a sink for
human-readable progress lines, so it is modelled as producing the line. -/
def Print (status shortDigest label : String) : Option Line :=
  some ⟨status, shortDigest, label⟩

/-- The `preCopy` closure built inside `runCopy`: look up the title
annotation with comma-ok; when absent, return nil (print nothing) unless
verbose, in which case fall back to the media type; finally print an
`Uploading` line.  `none` means the callback returned without printing;
`some l` means the line `l` was printed. -/
def preCopy (verbose : Bool) (desc : Descriptor) : Option Line :=
  match mapGet AnnotationTitle desc.annotations with
  | some name => Print "Uploading" (ShortDigest desc) name
  | none =>
    if !verbose then none
    else Print "Uploading" (ShortDigest desc) desc.mediaType

/-- The `onCopySkipped` closure built inside `runCopy`: always print an
`Exists` line labelled with the title annotation, indexed without
comma-ok (so the empty string when the key is absent). -/
def onCopySkipped (desc : Descriptor) : Option Line :=
  Print "Exists   " (ShortDigest desc) (mapGetD AnnotationTitle desc.annotations)

/-- The callback slots of an oras-go copy-options bundle
(`oras.CopyOptions` / `oras.ExtendedCopyOptions`). -/
structure CopyOptionsBundle where
  PreCopy : Descriptor → Option Line
  OnCopySkipped : Descriptor → Option Line

/-- The non-recursive bundle `cpOpts` as wired in `runCopy`:
`cpOpts.PreCopy, extendCpOpts.PreCopy = preCopy, preCopy` and
`cpOpts.OnCopySkipped, extendCpOpts.OnCopySkipped = onCopySkipped, onCopySkipped`. -/
def mkCpOpts (verbose : Bool) : CopyOptionsBundle :=
  { PreCopy := preCopy verbose, OnCopySkipped := onCopySkipped }

/-- The recursive (extended) bundle `extendCpOpts` as wired in `runCopy`,
populated from the same two closures. -/
def mkExtendCpOpts (verbose : Bool) : CopyOptionsBundle :=
  { PreCopy := preCopy verbose, OnCopySkipped := onCopySkipped }

/-- A parsed registry reference (`registry.Reference`): repository
identity plus the reference-string component `Reference` (tag or digest,
possibly empty). -/
structure Reference where
  repository : String
  reference : String
deriving DecidableEq, Repr

/-- A repository handle as returned by `option.Remote.NewRepository`,
exposing its parsed `Reference`. -/
structure Repository where
  reference : Reference
deriving DecidableEq, Repr

/-- Error values crossing the orchestrator boundary.
`invalidReference` is modelled from the spec: `newErrInvalidReference`
lives outside the provided sources; the spec names the class
`InvalidReference` and says it carries the offending reference. -/
inductive GoError where
  | invalidReference (ref : Reference)
  | msg (s : String)
deriving DecidableEq, Repr

/-- Oracle for the external collaborators: the outcome of constructing
the two repository clients, of `src.Resolve` on a given reference
string, and of each of the four oras-go delegates. -/
structure Collab where
  newSrcRepository : Except GoError Repository
  newDstRepository : Except GoError Repository
  resolve : String → Except GoError Descriptor
  copyResult : Except GoError Descriptor
  copyGraphResult : Except GoError Unit
  extendedCopyResult : Except GoError Descriptor
  extendedCopyGraphResult : Except GoError Unit

/-- Trace of collaborator calls made by `runCopy`, with their arguments. -/
inductive Event where
  | resolve (repo : Repository) (ref : String)
  | copy (src : Repository) (srcRef : String) (dst : Repository) (dstRef : String)
  | copyGraph (src : Repository) (dst : Repository) (desc : Descriptor)
  | extendedCopy (src : Repository) (srcRef : String) (dst : Repository) (dstRef : String)
  | extendedCopyGraph (src : Repository) (dst : Repository) (desc : Descriptor)
deriving DecidableEq, Repr

/-- Whether an event is one of the four copy delegates (as opposed to a
`Resolve` call). -/
def Event.isDelegate : Event → Bool
  | .resolve _ _ => false
  | _ => true

/-- The fields of `copyOptions` that `runCopy` reads: the (misspelled)
`rescursive` flag, `option.Common`'s `Verbose`, and the raw positional
reference strings. -/
structure copyOptions where
  rescursive : Bool
  Verbose : Bool
  srcRef : String
  dstRef : String
deriving DecidableEq, Repr

/-- Observable outcome of one `runCopy` invocation: the collaborator
calls made in order, the completion lines printed with `fmt.Println`,
and the returned error value (`Unit` on a nil return — the Go function
returns only `error`). -/
structure RunResult where
  events : List Event
  lines : List String
  result : Except GoError Unit
deriving Repr

/-- The delegate calls (among the four copy primitives) appearing in a
run's trace. -/
def RunResult.delegates (r : RunResult) : List Event :=
  r.events.filter Event.isDelegate

/-- Shallow embedding of `runCopy` (cmd/oras/copy.go): construct the two
repository clients, reject an empty source reference component, then
select one of the four delegates from `(rescursive, dst reference
emptiness)`, resolving the source first on the empty-destination paths,
and on success print the two completion lines. -/
def runCopy (opts : copyOptions) (w : Collab) : RunResult :=
  match w.newSrcRepository with
  | .error err => ⟨[], [], .error err⟩
  | .ok src =>
  match w.newDstRepository with
  | .error err => ⟨[], [], .error err⟩
  | .ok dst =>
  if src.reference.reference = "" then
    ⟨[], [], .error (.invalidReference src.reference)⟩
  else if opts.rescursive then
    if dst.reference.reference = "" then
      match w.resolve src.reference.reference with
      | .error err => ⟨[.resolve src src.reference.reference], [], .error err⟩
      | .ok desc =>
        match w.extendedCopyGraphResult with
        | .error err =>
          ⟨[.resolve src src.reference.reference, .extendedCopyGraph src dst desc],
           [], .error err⟩
        | .ok _ =>
          ⟨[.resolve src src.reference.reference, .extendedCopyGraph src dst desc],
           ["Copied " ++ opts.srcRef ++ " => " ++ opts.dstRef,
            "Digest: " ++ desc.digest], .ok ()⟩
    else
      match w.extendedCopyResult with
      | .error err =>
        ⟨[.extendedCopy src opts.srcRef dst opts.dstRef], [], .error err⟩
      | .ok desc =>
        ⟨[.extendedCopy src opts.srcRef dst opts.dstRef],
         ["Copied " ++ opts.srcRef ++ " => " ++ opts.dstRef,
          "Digest: " ++ desc.digest], .ok ()⟩
  else
    if dst.reference.reference = "" then
      match w.resolve src.reference.reference with
      | .error err => ⟨[.resolve src src.reference.reference], [], .error err⟩
      | .ok desc =>
        match w.copyGraphResult with
        | .error err =>
          ⟨[.resolve src src.reference.reference, .copyGraph src dst desc],
           [], .error err⟩
        | .ok _ =>
          ⟨[.resolve src src.reference.reference, .copyGraph src dst desc],
           ["Copied " ++ opts.srcRef ++ " => " ++ opts.dstRef,
            "Digest: " ++ desc.digest], .ok ()⟩
    else
      match w.copyResult with
      | .error err =>
        ⟨[.copy src opts.srcRef dst opts.dstRef], [], .error err⟩
      | .ok desc =>
        ⟨[.copy src opts.srcRef dst opts.dstRef],
         ["Copied " ++ opts.srcRef ++ " => " ++ opts.dstRef,
          "Digest: " ++ desc.digest], .ok ()⟩

/-- Shallow embedding of the cobra command wiring in `copyCmd`:
`Args: cobra.MinimumNArgs(2)` validates the positional-argument count,
then `RunE` stores `args[0]` and `args[1]` into `srcRef` / `dstRef` and
calls `runCopy`.  The rejection error is modelled from the spec: cobra
lives outside the provided sources; a too-short argument list fails
before `RunE` runs, making no collaborator call and printing nothing. -/
def copyCmdExecute (rescursive Verbose : Bool) (args : List String) (w : Collab) :
    RunResult :=
  if 2 ≤ args.length then
    runCopy ⟨rescursive, Verbose, args.getD 0 "", args.getD 1 ""⟩ w
  else
    ⟨[], [], .error (.msg "requires at least 2 arg(s)")⟩

/-! Concrete fixtures for scenarios and witnesses. -/

/-- The repository handle parsed from `repo-a:v1`. -/
def repoA : Repository := ⟨⟨"repo-a", "v1"⟩⟩

/-- The repository handle parsed from `repo-b:v1`. -/
def repoBTagged : Repository := ⟨⟨"repo-b", "v1"⟩⟩

/-- The repository handle parsed from `repo-b` (no tag). -/
def repoBUntagged : Repository := ⟨⟨"repo-b", ""⟩⟩

/-- Descriptor D of the end-to-end scenario: carries the title
annotation `net-monitor`. -/
def descD : Descriptor :=
  ⟨"application/vnd.oci.image.manifest.v1+json", "sha256:d1", 7,
   [(AnnotationTitle, "net-monitor")]⟩

/-- A descriptor whose annotation map lacks the title key. -/
def descNoTitle : Descriptor :=
  ⟨"application/vnd.oci.image.config.v1+json", "sha256:c0", 3,
   [("other.key", "x")]⟩

/-- A descriptor whose annotation map maps the title key to the empty
string. -/
def descEmptyTitle : Descriptor :=
  ⟨"application/vnd.oci.image.layer.v1.tar", "sha256:e2", 5,
   [(AnnotationTitle, "")]⟩

/-- Collaborator oracle for scenario 1: both clients construct, the
source resolves to `descD`, and every delegate succeeds with `descD`. -/
def scenario1 : Collab :=
  { newSrcRepository := .ok repoA
    newDstRepository := .ok repoBTagged
    resolve := fun _ => .ok descD
    copyResult := .ok descD
    copyGraphResult := .ok ()
    extendedCopyResult := .ok descD
    extendedCopyGraphResult := .ok () }

/-- Options of scenario 1: `oras cp repo-a:v1 repo-b:v1`. -/
def scenario1Opts : copyOptions := ⟨false, false, "repo-a:v1", "repo-b:v1"⟩

/-- Collaborator oracle whose destination reference has no tag. -/
def scenarioUntagged : Collab :=
  { scenario1 with newDstRepository := .ok repoBUntagged }

/-- Collaborator oracle whose source reference string component is
empty (`oras cp repo-a repo-b:v1`). -/
def scenarioEmptySrc : Collab :=
  { scenario1 with newSrcRepository := .ok ⟨⟨"repo-a", ""⟩⟩ }

/-- Collaborator oracle whose `oras.Copy` delegate fails. -/
def scenarioCopyFails : Collab :=
  { scenario1 with copyResult := .error (.msg "transfer failed") }

/-! Theorems settling the claims. -/

/-- C2: when both repository clients construct and the source reference
string component is empty, `runCopy` returns the `InvalidReference`
error carrying the source reference, having made no collaborator call
(no `Resolve`, none of the four delegates) and printed nothing. -/
theorem runCopy_empty_source_invalidReference (opts : copyOptions) (w : Collab)
    (src dst : Repository)
    (hs : w.newSrcRepository = Except.ok src)
    (hd : w.newDstRepository = Except.ok dst)
    (h : src.reference.reference = "") :
    runCopy opts w = ⟨[], [], .error (.invalidReference src.reference)⟩ := by
  simp [runCopy, hs, hd, h]

/-- Witness for C2: `oras cp repo-a repo-b:v1` with an untagged source
fails with `InvalidReference` and an empty trace. -/
theorem runCopy_empty_source_invalidReference_witness :
    runCopy scenario1Opts scenarioEmptySrc =
      ⟨[], [], .error (.invalidReference ⟨"repo-a", ""⟩)⟩ :=
  runCopy_empty_source_invalidReference scenario1Opts scenarioEmptySrc
    ⟨⟨"repo-a", ""⟩⟩ repoBTagged rfl rfl rfl

/-- C4: `preCopy` prints an `Uploading` line labelled with the title
annotation when present; with the title absent it prints nothing in
non-verbose mode and prints a line labelled with the media type in
verbose mode. -/
theorem preCopy_title_fallback (verbose : Bool) (desc : Descriptor) :
    (∀ name, mapGet AnnotationTitle desc.annotations = some name →
      preCopy verbose desc = some ⟨"Uploading", ShortDigest desc, name⟩) ∧
    (mapGet AnnotationTitle desc.annotations = none → verbose = false →
      preCopy verbose desc = none) ∧
    (mapGet AnnotationTitle desc.annotations = none → verbose = true →
      preCopy verbose desc = some ⟨"Uploading", ShortDigest desc, desc.mediaType⟩) :=
  ⟨fun name h => by simp [preCopy, h, Print],
   fun h hv => by simp [preCopy, h, hv],
   fun h hv => by simp [preCopy, h, hv, Print]⟩

/-- Witness for C4: a title-free descriptor is silent when non-verbose
and labelled by media type when verbose; a titled descriptor is labelled
by its title. -/
theorem preCopy_title_fallback_witness :
    preCopy false descNoTitle = none ∧
    preCopy true descNoTitle =
      some ⟨"Uploading", ShortDigest descNoTitle, descNoTitle.mediaType⟩ ∧
    preCopy false descD = some ⟨"Uploading", ShortDigest descD, "net-monitor"⟩ :=
  ⟨(preCopy_title_fallback false descNoTitle).2.1 rfl rfl,
   (preCopy_title_fallback true descNoTitle).2.2 rfl rfl,
   (preCopy_title_fallback false descD).1 "net-monitor" rfl⟩

/-- C5: `onCopySkipped`, as installed in both bundles, always prints the
`Exists` notice whatever the verbose flag, labelled with the title
annotation indexed without comma-ok, hence the empty string when the
annotation is absent. -/
theorem onCopySkipped_always_prints (verbose : Bool) (desc : Descriptor) :
    (mkCpOpts verbose).OnCopySkipped desc =
      some ⟨"Exists   ", ShortDigest desc, mapGetD AnnotationTitle desc.annotations⟩ ∧
    (mkExtendCpOpts verbose).OnCopySkipped desc =
      some ⟨"Exists   ", ShortDigest desc, mapGetD AnnotationTitle desc.annotations⟩ ∧
    mapGetD AnnotationTitle descNoTitle.annotations = "" :=
  ⟨rfl, rfl, rfl⟩

/-- C6: the non-recursive bundle `cpOpts` and the recursive bundle
`extendCpOpts` are populated with behaviorally identical callbacks: their
`PreCopy` slots agree on every descriptor and so do their
`OnCopySkipped` slots. -/
theorem bundles_behaviorally_identical (verbose : Bool) (desc : Descriptor) :
    (mkCpOpts verbose).PreCopy desc = (mkExtendCpOpts verbose).PreCopy desc ∧
    (mkCpOpts verbose).OnCopySkipped desc = (mkExtendCpOpts verbose).OnCopySkipped desc :=
  ⟨rfl, rfl⟩

/-- C9: the fallback of `preCopy` fires only when the title key is
absent; a title key present but mapped to the empty string yields an
`Uploading` line with an empty label under either verbosity. -/
theorem preCopy_present_empty_title (verbose : Bool) (desc : Descriptor)
    (h : mapGet AnnotationTitle desc.annotations = some "") :
    preCopy verbose desc = some ⟨"Uploading", ShortDigest desc, ""⟩ := by
  simp [preCopy, h, Print]

/-- Witness for C9: a descriptor whose annotations map the title key to
`""` prints an empty-labelled line in both modes. -/
theorem preCopy_present_empty_title_witness :
    preCopy false descEmptyTitle = some ⟨"Uploading", ShortDigest descEmptyTitle, ""⟩ ∧
    preCopy true descEmptyTitle = some ⟨"Uploading", ShortDigest descEmptyTitle, ""⟩ :=
  ⟨preCopy_present_empty_title false descEmptyTitle rfl,
   preCopy_present_empty_title true descEmptyTitle rfl⟩

/-- C10: on any argument list of length at least two the command runs
`runCopy` with the first argument as source reference and the second as
destination reference, and the trailing arguments do not affect the
outcome. -/
theorem copyCmd_uses_first_two_args (r v : Bool) (a b : String)
    (rest : List String) (w : Collab) :
    copyCmdExecute r v (a :: b :: rest) w = runCopy ⟨r, v, a, b⟩ w ∧
    copyCmdExecute r v (a :: b :: rest) w = copyCmdExecute r v [a, b] w := by
  constructor <;> simp [copyCmdExecute]

/-- C3 counterexample: in scenario 1 (`oras cp repo-a:v1 repo-b:v1`,
non-recursive) the single delegate call is `Copy` with the FULL
reference strings `repo-a:v1` and `repo-b:v1` (`opts.srcRef` /
`opts.dstRef`), not with the bare tag components `v1` the claim
states. -/
theorem copy_full_ref_counterexample :
    (runCopy scenario1Opts scenario1).delegates =
      [Event.copy repoA "repo-a:v1" repoBTagged "repo-b:v1"] ∧
    (runCopy scenario1Opts scenario1).delegates ≠
      [Event.copy repoA "v1" repoBTagged "v1"] := by
  exact ⟨rfl, by decide⟩

/-- C3 amended: `Copy` is called with the source repository handle, the
full source reference string `repo-a:v1`, the destination repository
handle, and the full destination reference string `repo-b:v1`; on
success the completion lines `Copied repo-a:v1 => repo-b:v1` and
`Digest: sha256:d1` are printed. -/
theorem copy_full_ref_and_completion :
    (runCopy scenario1Opts scenario1).delegates =
      [Event.copy repoA "repo-a:v1" repoBTagged "repo-b:v1"] ∧
    (runCopy scenario1Opts scenario1).lines =
      ["Copied repo-a:v1 => repo-b:v1", "Digest: sha256:d1"] :=
  ⟨rfl, rfl⟩

/-- C1: with both clients constructed and a non-empty source reference,
at most one of the four delegates is ever called, and which one is fixed
solely by `(rescursive, dst-reference emptiness)`: non-recursive with a
destination tag calls `Copy`; recursive with a destination tag calls
`ExtendedCopy`; with an empty destination reference the source is
resolved first and `CopyGraph` (non-recursive) or `ExtendedCopyGraph`
(recursive) is called on the resolved descriptor. -/
theorem runCopy_mode_selection (opts : copyOptions) (w : Collab) (src dst : Repository)
    (hs : w.newSrcRepository = Except.ok src)
    (hd : w.newDstRepository = Except.ok dst)
    (hne : src.reference.reference ≠ "") :
    (runCopy opts w).delegates.length ≤ 1 ∧
    (opts.rescursive = false → dst.reference.reference ≠ "" →
      (runCopy opts w).delegates = [.copy src opts.srcRef dst opts.dstRef]) ∧
    (opts.rescursive = true → dst.reference.reference ≠ "" →
      (runCopy opts w).delegates = [.extendedCopy src opts.srcRef dst opts.dstRef]) ∧
    (∀ desc, w.resolve src.reference.reference = .ok desc →
      (opts.rescursive = false → dst.reference.reference = "" →
        (runCopy opts w).events =
          [.resolve src src.reference.reference, .copyGraph src dst desc]) ∧
      (opts.rescursive = true → dst.reference.reference = "" →
        (runCopy opts w).events =
          [.resolve src src.reference.reference, .extendedCopyGraph src dst desc])) := by
  simp only [runCopy, hs, hd]
  cases hrec : opts.rescursive <;> by_cases hdst : dst.reference.reference = "" <;>
    simp only [hne, hdst, if_neg, if_pos, if_true, if_false, ite_false, ite_true,
      Bool.false_eq_true, Bool.true_eq_false, not_false_eq_true, ne_eq,
      not_true_eq_false, false_implies, true_implies, IsEmpty.forall_iff]
  · cases hres : w.resolve src.reference.reference with
    | error e => simp [RunResult.delegates, Event.isDelegate, hres]
    | ok desc =>
      cases hg : w.copyGraphResult <;>
        simp [RunResult.delegates, Event.isDelegate, hres, hg]
  · cases hc : w.copyResult <;>
      simp [RunResult.delegates, Event.isDelegate, hc]
  · cases hres : w.resolve src.reference.reference with
    | error e => simp [RunResult.delegates, Event.isDelegate, hres]
    | ok desc =>
      cases hg : w.extendedCopyGraphResult <;>
        simp [RunResult.delegates, Event.isDelegate, hres, hg]
  · cases hc : w.extendedCopyResult <;>
      simp [RunResult.delegates, Event.isDelegate, hc]

/-- Witness for C1: in scenario 1 the single delegate called is `Copy`. -/
theorem runCopy_mode_selection_witness :
    (runCopy scenario1Opts scenario1).delegates =
      [Event.copy repoA "repo-a:v1" repoBTagged "repo-b:v1"] :=
  (runCopy_mode_selection scenario1Opts scenario1 repoA repoBTagged rfl rfl
      (by decide)).2.1 rfl (by decide)

/-- C7: any error returned by `runCopy` is one of the step errors passed
through unchanged (client construction, the invalid-reference check,
`Resolve`, or a delegate — a callback failure surfaces as its delegate's
error); on failure no completion line is printed, and the two completion
lines appear exactly when the run succeeds. -/
theorem runCopy_error_propagation (opts : copyOptions) (w : Collab) :
    (∀ e, (runCopy opts w).result = .error e → (runCopy opts w).lines = []) ∧
    ((runCopy opts w).result = .ok () →
      ∃ d, (runCopy opts w).lines =
        ["Copied " ++ opts.srcRef ++ " => " ++ opts.dstRef, "Digest: " ++ d]) ∧
    (∀ e, (runCopy opts w).result = .error e →
      w.newSrcRepository = .error e ∨
      w.newDstRepository = .error e ∨
      (∃ src, w.newSrcRepository = .ok src ∧ e = .invalidReference src.reference) ∨
      (∃ r, w.resolve r = .error e) ∨
      w.copyResult = .error e ∨
      w.copyGraphResult = .error e ∨
      w.extendedCopyResult = .error e ∨
      w.extendedCopyGraphResult = .error e) := by
  unfold runCopy
  repeat' split
  all_goals refine ⟨fun e he => ?_, fun hok => ?_, fun e he => ?_⟩
  all_goals simp_all
  all_goals first
    | exact ⟨_, rfl⟩
    | tauto
    | (have hex : ∃ r, w.resolve r = Except.error e := ⟨_, by assumption⟩
       tauto)

/-- Witness for C7: when the `Copy` delegate fails, no completion line
is printed. -/
theorem runCopy_error_propagation_witness :
    (runCopy scenario1Opts scenarioCopyFails).lines = [] :=
  (runCopy_error_propagation scenario1Opts scenarioCopyFails).1
    (.msg "transfer failed") rfl

/-- C8 counterexample: `runCopy` returns only an error value — its
result type is `Except GoError Unit` — so at the fully successful
scenario 1 the returned success payload is the unit value, not the
subject descriptor `descD`; the subject surfaces only through the
printed `Digest: sha256:d1` line. -/
theorem runCopy_unit_result_counterexample :
    (runCopy scenario1Opts scenario1).result = Except.ok () ∧
    (runCopy scenario1Opts scenario1).lines =
      ["Copied repo-a:v1 => repo-b:v1", "Digest: sha256:d1"] :=
  ⟨rfl, rfl⟩

/-- C8 amended: the entry point takes the user intent (recursive flag,
source and destination reference strings, verbose flag, bundled in
`copyOptions`) and returns only an error value; on success the subject
descriptor is not returned to the caller — its digest is instead emitted
on the second completion line. -/
theorem runCopy_unit_result (opts : copyOptions) (w : Collab)
    (h : (runCopy opts w).result = .ok ()) :
    ∃ d, (runCopy opts w).lines =
      ["Copied " ++ opts.srcRef ++ " => " ++ opts.dstRef, "Digest: " ++ d] := by
  revert h
  unfold runCopy
  repeat' split
  all_goals intro h
  all_goals first
    | exact ⟨_, rfl⟩
    | simp_all

/-- Witness for C8: in scenario 1 the success is reported through the
completion lines alone. -/
theorem runCopy_unit_result_witness :
    ∃ d, (runCopy scenario1Opts scenario1).lines =
      ["Copied " ++ scenario1Opts.srcRef ++ " => " ++ scenario1Opts.dstRef,
       "Digest: " ++ d] :=
  runCopy_unit_result scenario1Opts scenario1 rfl

end OrasCopy
